import Mathlib

/-!
Verification of the day-cycle planning and replanning state machine of the
farming-advisory pipeline (pipeline nodes in `src/nodes`, state in
`src/state.py`, knowledge access in `src/knowledge/loaders.py`).

Each Python node function is shallowly embedded as a pure Lean function:
the LangGraph `state` dict becomes `FarmGraphState`, the persisted
`variable.json` dict becomes `VariableStore`, and each node maps
`(knowledge, state, variable)` to `(returned update, new variable)`.
Python `dict.get(k) or default` chains are modelled by conflating the
falsy values (`None`, `[]`, `""`) with the defaults, exactly as the reads
in the source do; `dict.get(k, d)` reads (which distinguish a present
falsy value from a missing key) are modelled with `Option`.
-/

/-- Substring test on character lists: does the list start with `pat`?
Models the beginning of Python's `pat in hay` containment test. -/
def startsWithChars : List Char → List Char → Bool
  | [], _ => true
  | _ :: _, [] => false
  | p :: ps, h :: hs => p == h && startsWithChars ps hs

/-- `containsChars pat hay` is true iff `pat` occurs contiguously in `hay`. -/
def containsChars : List Char → List Char → Bool
  | pat, [] => pat.isEmpty
  | pat, h :: hs => startsWithChars pat (h :: hs) || containsChars pat hs

/-- Python's substring containment `pat in hay` on strings. -/
def strHasSub (hay pat : String) : Bool :=
  containsChars pat.data hay.data

/-- `CalendarEntry` from `src/state.py`: one day-keyed schedule record. -/
structure CalendarEntry where
  day : Int
  stage : String
  actions : List String
  dependencies : List String
  weatherConstraints : List String
deriving DecidableEq, Repr

/-- `RiskEvent` from `src/state.py`: `{type, reason}`. -/
structure RiskEvent where
  type : String
  reason : String
deriving DecidableEq, Repr

/-- One lifecycle stage block of `persistent.json`'s `stageModels` as read
by `src/knowledge/loaders.py` and `src/nodes/crop_calendar_planner_node.py`. -/
structure StageBlock where
  stage : String
  dayStart : Int
  dayEnd : Int
  actions : List String
  dependencies : List String
  weatherConstraints : List String
deriving DecidableEq, Repr

/-- `replanningRules` of `persistent.json` as consumed by
`get_replanning_rules` callers.  `sprayDelayToleranceDays` is read with
`rules.get("sprayDelayToleranceDays", 3)` (presence-sensitive, hence
`Option`); `rainBlockedActions` is read through an `or` chain, so a
missing key and `[]` behave identically and a plain list suffices. -/
structure ReplanningRules where
  rainBlockedActions : List String
  sprayDelayToleranceDays : Option Int
deriving DecidableEq, Repr

/-- The persistent knowledge store (`persistent.json`): `stageModels` keyed
by crop plus `replanningRules`.  Only the parts the verified nodes read. -/
structure Knowledge where
  stageModels : List (String × List StageBlock)
  replanningRules : ReplanningRules
deriving DecidableEq, Repr

/-- `get_crop_lifecycle` from `src/knowledge/loaders.py`:
`models.get(crop, [])`. -/
def get_crop_lifecycle (kb : Knowledge) (crop : String) : List StageBlock :=
  match kb.stageModels.lookup crop with
  | some l => l
  | none => []

/-- One entry of the append-only `completedActions` / `skippedActions` /
`delayedActions` logs written by `src/nodes/feedback_node.py`. -/
structure ActionLogEntry where
  action : String
  day : Int
  reason : Option String
deriving DecidableEq, Repr

/-- The LangGraph state fields (`FarmGraphState` in `src/state.py`) read by
the verified nodes.  Fields read through `state.get(k) or d` conflate the
falsy values with `d`; `currentDayIndex` is read with a two-argument
`.get` and so keeps an `Option`. -/
structure FarmGraphState where
  crop : String
  location : String
  sowingDate : String
  soilContext : List (String × String)
  expectedWeatherPattern : String
  cropCalendar : List CalendarEntry
  currentDayIndex : Option Int
  todayActions : List String
  weatherRisk : String
  riskEvent : Option RiskEvent
  farmer_response : String
  knowledgeSourcesUsed : List String
deriving DecidableEq, Repr

/-- The persisted `variable.json` record (the fields the verified nodes
read or write).  `currentDayIndex` is presence-sensitive (`.get` with
default), hence `Option`; `riskEvent` conflates missing and `None`. -/
structure VariableStore where
  cropCalendar : List CalendarEntry
  currentDayIndex : Option Int
  currentCropStage : String
  crop : String
  sowingDate : String
  location : String
  soilContext : List (String × String)
  riskEvent : Option RiskEvent
  riskEvents : List RiskEvent
  completedActions : List ActionLogEntry
  skippedActions : List ActionLogEntry
  delayedActions : List ActionLogEntry
  confidenceScores : List (String × Rat)
  farmer_response : String
  last_advisory : Option String
deriving DecidableEq, Repr

/-- Stable insertion of a calendar entry into a day-sorted list: the entry
goes after every existing entry whose day is `≤` its own. -/
def insertByDay (e : CalendarEntry) : List CalendarEntry → List CalendarEntry
  | [] => [e]
  | f :: rest => if f.day ≤ e.day then f :: insertByDay e rest else e :: f :: rest

/-- `calendar.sort(key=lambda e: e.get("day", 0))`: Python's stable sort by
day, modelled as a stable insertion sort. -/
def sortByDay (l : List CalendarEntry) : List CalendarEntry :=
  l.foldl (fun acc e => insertByDay e acc) []

/-- The `CalendarEntry` the planner emits for one stage block
(`src/nodes/crop_calendar_planner_node.py`, entry construction). -/
def stageEntry (b : StageBlock) : CalendarEntry :=
  { day := b.dayStart
    stage := b.stage
    actions := b.actions
    dependencies := b.dependencies
    weatherConstraints := b.weatherConstraints }

/-- The update dict returned by `crop_calendar_planner_node`.
The early (missing-lifecycle) return carries no `knowledgeSourcesUsed`
key, hence the `Option`. -/
structure PlannerResult where
  cropCalendar : List CalendarEntry
  currentDayIndex : Int
  currentCropStage : String
  knowledgeSourcesUsed : Option (List String)
deriving DecidableEq, Repr

/-- `crop_calendar_planner_node` from
`src/nodes/crop_calendar_planner_node.py`: build the full calendar (one
entry per lifecycle stage, keyed by the stage's start day, sorted by day),
reset the day pointer to 0, set the stage to the first stage's name, and
persist; with no lifecycle for the crop, return the empty result before
touching the store. -/
def crop_calendar_planner_node (kb : Knowledge) (state : FarmGraphState)
    (var : VariableStore) : PlannerResult × VariableStore :=
  let crop := state.crop
  let lifecycle := get_crop_lifecycle kb crop
  match lifecycle with
  | [] =>
    ({ cropCalendar := [], currentDayIndex := 0, currentCropStage := "",
       knowledgeSourcesUsed := none }, var)
  | first :: _ =>
    let calendar := sortByDay (lifecycle.map stageEntry)
    let current_day : Int := 0
    let current_stage := first.stage
    let var' :=
      { var with
        cropCalendar := calendar
        currentDayIndex := some current_day
        currentCropStage := current_stage
        crop := crop
        sowingDate := state.sowingDate
        location := state.location
        soilContext := state.soilContext }
    ({ cropCalendar := calendar, currentDayIndex := current_day,
       currentCropStage := current_stage,
       knowledgeSourcesUsed :=
         some (state.knowledgeSourcesUsed ++ ["stage_models", "agronomy_rules"]) },
     var')

/-- `state.get("riskEvent") or variable.get("riskEvent")` as in
`src/nodes/calendar_replanner_node.py` and `src/nodes/feedback_node.py`. -/
def effectiveRiskEvent (state : FarmGraphState) (var : VariableStore) :
    Option RiskEvent :=
  match state.riskEvent with
  | some ev => some ev
  | none => var.riskEvent

/-- `variable.get("currentDayIndex", state.get("currentDayIndex", 0))`. -/
def effectiveCurrentDay (state : FarmGraphState) (var : VariableStore) : Int :=
  match var.currentDayIndex with
  | some d => d
  | none =>
    match state.currentDayIndex with
    | some d => d
    | none => 0

/-- `variable.get("cropCalendar") or state.get("cropCalendar") or []`:
an empty (falsy) stored calendar falls through to the state's calendar. -/
def effectiveCalendar (state : FarmGraphState) (var : VariableStore) :
    List CalendarEntry :=
  if var.cropCalendar = [] then state.cropCalendar else var.cropCalendar

/-- The reschedule day of `calendar_replanner_node`: `current_day + 2`,
clamped so it never exceeds `current_day + max_delay`. -/
def rescheduleDayOf (current_day max_delay : Int) : Int :=
  let d := current_day + 2
  if d > current_day + max_delay then current_day + max_delay else d

/-- The body of the replanner's `for entry in remaining` loop
(`src/nodes/calendar_replanner_node.py`): an entry at exactly the current
day under a "Rain" failure has its `todayActions` members moved to the
reschedule day with a " (rescheduled)" suffix, the remaining actions stay
at the current day (falling back to stage "Monitoring" / action
"Field scouting" when none remain); every other entry passes through. -/
def replanEntry (current_day reschedule_day : Int) (failed_reason : String)
    (today_actions : List String) (entry : CalendarEntry) : List CalendarEntry :=
  if entry.day = current_day ∧ failed_reason = "Rain" then
    let rescheduled_actions :=
      (entry.actions.filter (fun a => today_actions.contains a)).map
        (fun a => a ++ " (rescheduled)")
    let other_actions := entry.actions.filter (fun a => !today_actions.contains a)
    (if rescheduled_actions = [] then [] else
      [{ day := reschedule_day, stage := entry.stage,
         actions := rescheduled_actions,
         dependencies := entry.dependencies,
         weatherConstraints := entry.weatherConstraints }]) ++
    [{ day := current_day,
       stage := if other_actions = [] then "Monitoring" else entry.stage,
       actions := if other_actions = [] then ["Field scouting"] else other_actions,
       dependencies := [], weatherConstraints := [] }]
  else [entry]

/-- `calendar_replanner_node` from `src/nodes/calendar_replanner_node.py`.
Returns `none` (the empty update `{}`) when no risk event is in scope;
otherwise partitions the calendar into past and remaining around the
current day, rewrites the remaining entries with `replanEntry`, re-sorts
them by day, and persists `past ++ sorted updated remaining`. -/
def calendar_replanner_node (kb : Knowledge) (state : FarmGraphState)
    (var : VariableStore) : Option (List CalendarEntry) × VariableStore :=
  match effectiveRiskEvent state var with
  | none => (none, var)
  | some risk_event =>
    let current_day := effectiveCurrentDay state var
    let calendar := effectiveCalendar state var
    let max_delay := kb.replanningRules.sprayDelayToleranceDays.getD 3
    let past := calendar.filter (fun e => decide (e.day < current_day))
    let remaining := calendar.filter (fun e => decide (current_day ≤ e.day))
    let failed_reason := risk_event.reason
    let today_actions := state.todayActions
    let reschedule_day := rescheduleDayOf current_day max_delay
    let updated_remaining :=
      remaining.flatMap (replanEntry current_day reschedule_day failed_reason today_actions)
    let full_calendar := past ++ sortByDay updated_remaining
    (some full_calendar, { var with cropCalendar := full_calendar })

/-- The built-in fallback rain-blocked-action list of
`src/nodes/risk_detection_node.py`. -/
def default_rain_blocked : List String :=
  ["Fungicide spray", "First nitrogen application", "Second nitrogen if needed"]

/-- The effective rain-blocked list: the knowledge base's
`rainBlockedActions` unless that is empty/missing, in which case the
built-in default list. -/
def effectiveRainBlocked (kb : Knowledge) : List String :=
  if kb.replanningRules.rainBlockedActions = [] then default_rain_blocked
  else kb.replanningRules.rainBlockedActions

/-- The scanning loop of `risk_detection_node`: walk today's actions in
order; the first action containing (substring) a rain-blocked name while
the risk is RAIN_EXPECTED yields an ACTION_BLOCKED/Rain event; a HEATWAVE
risk yields a HEAT_STRESS/Heatwave event on the first action; the loop
stops at the first event. -/
def detectRisk (weather_risk : String) (rain_blocked : List String) :
    List String → Option RiskEvent
  | [] => none
  | action :: rest =>
    if weather_risk == "RAIN_EXPECTED" && rain_blocked.any (fun b => strHasSub action b) then
      some { type := "ACTION_BLOCKED", reason := "Rain" }
    else if weather_risk == "HEATWAVE" then
      some { type := "HEAT_STRESS", reason := "Heatwave" }
    else detectRisk weather_risk rain_blocked rest

/-- The update dict returned by `risk_detection_node`. -/
structure RiskResult where
  riskEvent : Option RiskEvent
  riskEvents : List RiskEvent
deriving DecidableEq, Repr

/-- `risk_detection_node` from `src/nodes/risk_detection_node.py`: detect
at most one risk event from today's actions and the weather risk, append
it (if any) to the `riskEvents` history, and persist both the transient
event (overwriting any stale one) and the history. -/
def risk_detection_node (kb : Knowledge) (state : FarmGraphState)
    (var : VariableStore) : RiskResult × VariableStore :=
  let today_actions := state.todayActions
  let weather_risk := if state.weatherRisk = "" then "CLEAR" else state.weatherRisk
  let rain_blocked := effectiveRainBlocked kb
  let risk_event := detectRisk weather_risk rain_blocked today_actions
  let risk_events_list := var.riskEvents ++ risk_event.toList
  ({ riskEvent := risk_event, riskEvents := risk_events_list },
   { var with riskEvent := risk_event, riskEvents := risk_events_list })

/-- Python dict assignment `m[k] = x` on an insertion-ordered assoc list. -/
def setScore : List (String × Rat) → String → Rat → List (String × Rat)
  | [], k, x => [(k, x)]
  | (k', x') :: rest, k, x =>
    if k' = k then (k, x) :: rest else (k', x') :: setScore rest k x

/-- Python `m.get(k, 0)` on the confidence-score assoc list. -/
def getScore (m : List (String × Rat)) (k : String) : Rat :=
  (m.lookup k).getD 0

/-- The update dict returned by `feedback_node`. -/
structure FeedbackResult where
  currentDayIndex : Int
  completedActions : List ActionLogEntry
  skippedActions : List ActionLogEntry
  delayedActions : List ActionLogEntry
  confidenceScores : List (String × Rat)
deriving DecidableEq, Repr

/-- `feedback_node` from `src/nodes/feedback_node.py`: classify today's
actions into skipped / completed / delayed from the farmer response and
any ACTION_BLOCKED risk event, bump the matching confidence score,
advance `currentDayIndex` by exactly one, and clear the transient
`riskEvent` in the persisted store. -/
def feedback_node (state : FarmGraphState) (var : VariableStore) :
    FeedbackResult × VariableStore :=
  let farmer_response :=
    if state.farmer_response = "" then var.farmer_response else state.farmer_response
  let current_day := effectiveCurrentDay state var
  let today_actions := state.todayActions
  let risk_event := effectiveRiskEvent state var
  let completed := var.completedActions
  let skipped := var.skippedActions
  let delayed := var.delayedActions
  let confidence := var.confidenceScores
  let blocked :=
    match risk_event with
    | some ev => ev.type == "ACTION_BLOCKED"
    | none => false
  let logs :=
    if farmer_response == "did_not_spray" || blocked then
      (completed,
       skipped ++ today_actions.map
         (fun a => { action := a, day := current_day, reason := some "blocked" }),
       delayed,
       setScore confidence "spray_skip" (getScore confidence "spray_skip" + 1/10))
    else if farmer_response == "completed" then
      (completed ++ today_actions.map
         (fun a => { action := a, day := current_day, reason := none }),
       skipped,
       delayed,
       setScore confidence "completion" (getScore confidence "completion" + 1/10))
    else
      (completed,
       skipped,
       delayed ++ today_actions.map
         (fun a => { action := a, day := current_day, reason := none }),
       confidence)
  let next_day := current_day + 1
  ({ currentDayIndex := next_day,
     completedActions := logs.1,
     skippedActions := logs.2.1,
     delayedActions := logs.2.2.1,
     confidenceScores := logs.2.2.2 },
   { var with
     currentDayIndex := some next_day,
     completedActions := logs.1,
     skippedActions := logs.2.1,
     delayedActions := logs.2.2.1,
     confidenceScores := logs.2.2.2,
     riskEvent := none })

/-- The message construction of `advisory_delivery_node`
(`src/nodes/advisory_delivery_node.py`): an ACTION_BLOCKED risk event
whose reason contains "Rain" yields the localized do-not-spray message;
an ACTION_BLOCKED event with any other reason yields the generic
do-not-perform message citing the reason; otherwise a non-empty action
list is joined into one sentence, and the observe-field fallback closes. -/
def advisoryMessage (today_actions : List String) (risk_event : Option RiskEvent) :
    String :=
  match risk_event with
  | some ev =>
    if ev.type = "ACTION_BLOCKED" then
      if strHasSub ev.reason "Rain" || ev.reason == "Rain" then
        "आज फवारणी करू नका. पाऊस अपेक्षित आहे. उद्या परिस्थिती पाहून निर्णय घेऊ."
      else
        "आज planned कृती करू नका. कारण: " ++ ev.reason ++ ". उद्या पुन्हा तपासा."
    else if today_actions ≠ [] then
      "आज करावयाच्या कृती: " ++ String.intercalate ", " today_actions ++ "."
    else
      "आज विशिष्ट कृती नाही. शेताचे निरीक्षण करा."
  | none =>
    if today_actions ≠ [] then
      "आज करावयाच्या कृती: " ++ String.intercalate ", " today_actions ++ "."
    else
      "आज विशिष्ट कृती नाही. शेताचे निरीक्षण करा."

/-- `advisory_delivery_node` from `src/nodes/advisory_delivery_node.py`:
build the advisory message from today's actions and the state's risk
event, persist it as `last_advisory`, and return it. -/
def advisory_delivery_node (state : FarmGraphState) (var : VariableStore) :
    String × VariableStore :=
  let message := advisoryMessage state.todayActions state.riskEvent
  (message, { var with last_advisory := some message })

/-- The spec's `cycleDuration` vocabulary for a crop lifecycle
(modelled from the spec's words, for stating the contiguity claim): the
crop's full cycle length, i.e. the largest `dayEnd` covered by its stage
blocks. -/
def specCycleDuration (lifecycle : List StageBlock) : Int :=
  (lifecycle.map (fun b => b.dayEnd)).foldr max 0

/-- Three-stage rice lifecycle used as concrete test data (mirrors the
spec's fresh-plan scenario). -/
def lcRice3 : List StageBlock :=
  [{ stage := "Sowing", dayStart := 1, dayEnd := 5,
     actions := ["Seed soaking"], dependencies := [], weatherConstraints := [] },
   { stage := "Vegetative", dayStart := 6, dayEnd := 60,
     actions := ["Fungicide spray"], dependencies := [], weatherConstraints := [] },
   { stage := "Harvest", dayStart := 61, dayEnd := 120,
     actions := ["Harvesting"], dependencies := [], weatherConstraints := [] }]

/-- Two-stage lifecycle whose stages cover days 1–10 with start days 1 and 6. -/
def lcPair : List StageBlock :=
  [{ stage := "Sowing", dayStart := 1, dayEnd := 5,
     actions := ["Seed soaking"], dependencies := [], weatherConstraints := [] },
   { stage := "Vegetative", dayStart := 6, dayEnd := 10,
     actions := ["Weeding"], dependencies := [], weatherConstraints := [] }]

/-- Knowledge base holding the rice lifecycle and default-shaped rules. -/
def kbRice : Knowledge :=
  { stageModels := [("rice", lcRice3)],
    replanningRules := { rainBlockedActions := [], sprayDelayToleranceDays := some 3 } }

/-- Knowledge base holding the two-stage lifecycle. -/
def kbPair : Knowledge :=
  { stageModels := [("rice", lcPair)],
    replanningRules := { rainBlockedActions := [], sprayDelayToleranceDays := some 3 } }

/-- An empty persisted store (all fields at their falsy/missing values). -/
def emptyVar : VariableStore :=
  { cropCalendar := [], currentDayIndex := none, currentCropStage := "",
    crop := "", sowingDate := "", location := "", soilContext := [],
    riskEvent := none, riskEvents := [], completedActions := [],
    skippedActions := [], delayedActions := [], confidenceScores := [],
    farmer_response := "", last_advisory := none }

/-- A minimal graph state (all fields at their falsy/missing values). -/
def baseState : FarmGraphState :=
  { crop := "", location := "", sowingDate := "", soilContext := [],
    expectedWeatherPattern := "", cropCalendar := [], currentDayIndex := none,
    todayActions := [], weatherRisk := "", riskEvent := none,
    farmer_response := "", knowledgeSourcesUsed := [] }

/-- A three-entry calendar at days 1, 10, 20 used in replanning tests. -/
def calThree : List CalendarEntry :=
  [{ day := 1, stage := "Sowing", actions := ["Seed soaking"],
     dependencies := [], weatherConstraints := [] },
   { day := 10, stage := "Vegetative", actions := ["Fungicide spray"],
     dependencies := ["Sowing"], weatherConstraints := ["no rain"] },
   { day := 20, stage := "Harvest", actions := ["Harvesting"],
     dependencies := [], weatherConstraints := [] }]

/-- Graph state on day 10 with a rain-blocked spray (scenario input). -/
def rainState : FarmGraphState :=
  { baseState with
    crop := "rice",
    todayActions := ["Fungicide spray"],
    weatherRisk := "RAIN_EXPECTED",
    riskEvent := some { type := "ACTION_BLOCKED", reason := "Rain" } }

/-- Persisted store on day 10 holding `calThree`. -/
def rainVar : VariableStore :=
  { emptyVar with cropCalendar := calThree, currentDayIndex := some 10 }

/-- The day-10 entry of `calThree` (the one hit by the rain replan). -/
def entry10 : CalendarEntry :=
  { day := 10, stage := "Vegetative", actions := ["Fungicide spray"],
    dependencies := ["Sowing"], weatherConstraints := ["no rain"] }

/-- The calendar the replanner produces from `calThree` on day 10 with a
rain-blocked "Fungicide spray" and tolerance 3 (mirrors the spec's
rain-blocks-spray scenario). -/
def replannedCalRice : List CalendarEntry :=
  [{ day := 1, stage := "Sowing", actions := ["Seed soaking"],
     dependencies := [], weatherConstraints := [] },
   { day := 10, stage := "Monitoring", actions := ["Field scouting"],
     dependencies := [], weatherConstraints := [] },
   { day := 12, stage := "Vegetative", actions := ["Fungicide spray (rescheduled)"],
     dependencies := ["Sowing"], weatherConstraints := ["no rain"] },
   { day := 20, stage := "Harvest", actions := ["Harvesting"],
     dependencies := [], weatherConstraints := [] }]

lemma insertByDay_perm (e : CalendarEntry) (l : List CalendarEntry) :
    (insertByDay e l).Perm (e :: l) := by
  induction l with
  | nil => simp [insertByDay]
  | cons f rest ih =>
    simp only [insertByDay]
    split
    · exact (ih.cons f).trans (List.Perm.swap e f rest)
    · exact List.Perm.refl _

lemma foldl_insertByDay_perm (l acc : List CalendarEntry) :
    (l.foldl (fun acc e => insertByDay e acc) acc).Perm (acc ++ l) := by
  induction l generalizing acc with
  | nil => simp
  | cons x xs ih =>
    simp only [List.foldl_cons]
    refine (ih (insertByDay x acc)).trans ?_
    refine (List.Perm.append_right xs (insertByDay_perm x acc)).trans ?_
    exact List.perm_middle.symm

/-- `sortByDay` permutes its input. -/
lemma sortByDay_perm (l : List CalendarEntry) : (sortByDay l).Perm l := by
  simpa using foldl_insertByDay_perm l []

lemma mem_sortByDay {e : CalendarEntry} {l : List CalendarEntry} :
    e ∈ sortByDay l ↔ e ∈ l :=
  (sortByDay_perm l).mem_iff

/-- C5: every `feedback_node` invocation advances the day pointer by
exactly one — both in the returned update and in the persisted store —
and the persisted transient `riskEvent` is cleared to absent, for all
inputs. -/
theorem feedback_increments_day_and_clears_risk (s : FarmGraphState) (v : VariableStore) :
    (feedback_node s v).1.currentDayIndex = effectiveCurrentDay s v + 1 ∧
    (feedback_node s v).2.currentDayIndex = some (effectiveCurrentDay s v + 1) ∧
    (feedback_node s v).2.riskEvent = none :=
  ⟨rfl, rfl, rfl⟩

/-- C7: calling the planner for a crop with no lifecycle entry in the
knowledge base returns the empty calendar, day pointer 0 and empty stage,
regardless of prior state, and (being a total function) never raises. -/
theorem planner_missing_crop_returns_empty (kb : Knowledge) (s : FarmGraphState)
    (v : VariableStore) (h : get_crop_lifecycle kb s.crop = []) :
    (crop_calendar_planner_node kb s v).1 =
      { cropCalendar := [], currentDayIndex := 0, currentCropStage := "",
        knowledgeSourcesUsed := none } := by
  simp [crop_calendar_planner_node, h]

/-- Witness for C7: planning "wheat" against a store that only knows
"rice" yields the empty result. -/
theorem planner_missing_crop_returns_empty_witness :
    (crop_calendar_planner_node kbRice { baseState with crop := "wheat" } emptyVar).1 =
      { cropCalendar := [], currentDayIndex := 0, currentCropStage := "",
        knowledgeSourcesUsed := none } :=
  planner_missing_crop_returns_empty kbRice _ emptyVar (by decide)

/-- C9: when the planner is invoked for a crop with no lifecycle entry it
returns before performing any persistence, so the persisted store is left
entirely unchanged. -/
theorem planner_missing_crop_preserves_store (kb : Knowledge) (s : FarmGraphState)
    (v : VariableStore) (h : get_crop_lifecycle kb s.crop = []) :
    (crop_calendar_planner_node kb s v).2 = v := by
  simp [crop_calendar_planner_node, h]

/-- Witness for C9: an unknown crop leaves a populated store untouched. -/
theorem planner_missing_crop_preserves_store_witness :
    (crop_calendar_planner_node kbRice { baseState with crop := "maize" } rainVar).2 =
      rainVar :=
  planner_missing_crop_preserves_store kbRice _ rainVar (by decide)

/-- C10: with an empty action list for today, the risk detector emits no
event for any weather risk, appends nothing to the `riskEvents` history,
and overwrites the persisted transient `riskEvent` with absent. -/
theorem risk_detection_empty_actions (kb : Knowledge) (s : FarmGraphState)
    (v : VariableStore) (h : s.todayActions = []) :
    (risk_detection_node kb s v).1.riskEvent = none ∧
    (risk_detection_node kb s v).1.riskEvents = v.riskEvents ∧
    (risk_detection_node kb s v).2.riskEvent = none ∧
    (risk_detection_node kb s v).2.riskEvents = v.riskEvents := by
  simp [risk_detection_node, h, detectRisk]

/-- Witness for C10: a HEATWAVE day with no actions clears a stale
persisted event and leaves the history unchanged. -/
theorem risk_detection_empty_actions_witness :
    (risk_detection_node kbRice { baseState with weatherRisk := "HEATWAVE" }
        { emptyVar with
          riskEvent := some { type := "HEAT_STRESS", reason := "Heatwave" },
          riskEvents := [{ type := "HEAT_STRESS", reason := "Heatwave" }] }).2.riskEvent
      = none ∧
    (risk_detection_node kbRice { baseState with weatherRisk := "HEATWAVE" }
        { emptyVar with
          riskEvent := some { type := "HEAT_STRESS", reason := "Heatwave" },
          riskEvents := [{ type := "HEAT_STRESS", reason := "Heatwave" }] }).2.riskEvents
      = [{ type := "HEAT_STRESS", reason := "Heatwave" }] := by
  have h := risk_detection_empty_actions kbRice
    { baseState with weatherRisk := "HEATWAVE" }
    { emptyVar with
      riskEvent := some { type := "HEAT_STRESS", reason := "Heatwave" },
      riskEvents := [{ type := "HEAT_STRESS", reason := "Heatwave" }] } rfl
  exact ⟨h.2.2.1, h.2.2.2⟩

/-- C3: the reschedule day computed by the replanner
(`rescheduleDayOf`, used by `calendar_replanner_node`) lies strictly
after the current day and never more than the spray-delay tolerance
beyond it (for any tolerance of at least one day), and when
`current + 2` would exceed the tolerance it is silently clamped to
`current + tolerance` — the computation is total, so no error is ever
raised. -/
theorem reschedule_day_bounds (cd md : Int) (h : 1 ≤ md) :
    cd < rescheduleDayOf cd md ∧
    rescheduleDayOf cd md ≤ cd + md ∧
    (cd + md < cd + 2 → rescheduleDayOf cd md = cd + md) := by
  unfold rescheduleDayOf
  dsimp only
  split <;> omega

/-- Witness for C3: with tolerance 3 the reschedule day from day 10 is
within (10, 13]; with tolerance 1 it is clamped to day 11. -/
theorem reschedule_day_bounds_witness :
    (10 : Int) < rescheduleDayOf 10 3 ∧
    rescheduleDayOf 10 3 ≤ 10 + 3 ∧
    rescheduleDayOf 10 1 = 10 + 1 :=
  ⟨(reschedule_day_bounds 10 3 (by decide)).1,
   (reschedule_day_bounds 10 3 (by decide)).2.1,
   (reschedule_day_bounds 10 1 (by decide)).2.2 (by decide)⟩

lemma detectRisk_rain (rb l : List String) :
    detectRisk "RAIN_EXPECTED" rb l =
      if l.any (fun a => rb.any (fun b => strHasSub a b)) then
        some { type := "ACTION_BLOCKED", reason := "Rain" }
      else none := by
  induction l with
  | nil => simp [detectRisk]
  | cons a rest ih =>
    by_cases hm : rb.any (fun b => strHasSub a b) = true
    · simp [detectRisk, hm]
    · simp [detectRisk, hm, ih]

lemma detectRisk_heat (rb l : List String) :
    detectRisk "HEATWAVE" rb l =
      if l.isEmpty then none
      else some { type := "HEAT_STRESS", reason := "Heatwave" } := by
  cases l with
  | nil => simp [detectRisk]
  | cons a rest => simp [detectRisk]

lemma detectRisk_other (w : String) (rb l : List String)
    (h1 : w ≠ "RAIN_EXPECTED") (h2 : w ≠ "HEATWAVE") :
    detectRisk w rb l = none := by
  induction l with
  | nil => simp [detectRisk]
  | cons a rest ih => simp [detectRisk, h1, h2, ih]

/-- C6: the risk detector emits at most one event per invocation (its
result is a single optional event), characterized by a first-match scan
of today's actions: under RAIN_EXPECTED, an ACTION_BLOCKED/"Rain" event
iff some action contains (substring) an effective rain-blocked name;
under HEATWAVE, a HEAT_STRESS/"Heatwave" event iff the scan sees any
action at all; under any other weather risk, no event. -/
theorem risk_detection_first_match (kb : Knowledge) (s : FarmGraphState)
    (v : VariableStore) :
    (s.weatherRisk = "RAIN_EXPECTED" →
      (risk_detection_node kb s v).1.riskEvent =
        if s.todayActions.any (fun a => (effectiveRainBlocked kb).any (fun b => strHasSub a b)) then
          some { type := "ACTION_BLOCKED", reason := "Rain" }
        else none) ∧
    (s.weatherRisk = "HEATWAVE" →
      (risk_detection_node kb s v).1.riskEvent =
        if s.todayActions.isEmpty then none
        else some { type := "HEAT_STRESS", reason := "Heatwave" }) ∧
    (s.weatherRisk ≠ "RAIN_EXPECTED" → s.weatherRisk ≠ "HEATWAVE" →
      (risk_detection_node kb s v).1.riskEvent = none) := by
  have hmsg : (risk_detection_node kb s v).1.riskEvent =
      detectRisk (if s.weatherRisk = "" then "CLEAR" else s.weatherRisk)
        (effectiveRainBlocked kb) s.todayActions := rfl
  refine ⟨?_, ?_, ?_⟩
  · intro hw
    rw [hmsg, hw]
    simp [detectRisk_rain]
  · intro hw
    rw [hmsg, hw]
    simp [detectRisk_heat]
  · intro h1 h2
    rw [hmsg]
    by_cases he : s.weatherRisk = ""
    · rw [if_pos he]
      exact detectRisk_other _ _ _ (by decide) (by decide)
    · rw [if_neg he]
      exact detectRisk_other _ _ _ h1 h2

/-- Witness for C6: on a RAIN_EXPECTED day with a fungicide spray
scheduled, the detector emits exactly the ACTION_BLOCKED/"Rain" event. -/
theorem risk_detection_first_match_witness :
    (risk_detection_node kbRice rainState emptyVar).1.riskEvent =
      some { type := "ACTION_BLOCKED", reason := "Rain" } := by
  have h := (risk_detection_first_match kbRice rainState emptyVar).1 rfl
  rw [h]
  decide

lemma concat3_ne_empty (p r q : String) (hp : p.data ≠ []) : p ++ r ++ q ≠ "" := by
  intro h
  have hd := congrArg String.data h
  rw [String.data_append, String.data_append,
    show ("" : String).data = [] from rfl] at hd
  rcases List.append_eq_nil.mp hd with ⟨h1, _⟩
  rcases List.append_eq_nil.mp h1 with ⟨h2, _⟩
  exact hp h2

/-- C8 (amended): the advisory node always produces a non-empty message
and never surfaces an error (it is a total function); the message is the
localized do-not-spray text when an ACTION_BLOCKED risk event whose
reason contains "Rain" is present, the generic do-not-perform text citing
the reason for an ACTION_BLOCKED event with any other reason, the joined
action sentence when no ACTION_BLOCKED event is present and today's
actions are non-empty, and the observe-field fallback otherwise —
risk events of a type other than ACTION_BLOCKED (e.g. HEAT_STRESS) do
not select the risk message. -/
theorem advisory_characterization (s : FarmGraphState) (v : VariableStore) :
    (advisory_delivery_node s v).1 ≠ "" ∧
    (∀ ev, s.riskEvent = some ev → ev.type = "ACTION_BLOCKED" →
      (strHasSub ev.reason "Rain" || ev.reason == "Rain") = true →
      (advisory_delivery_node s v).1 =
        "आज फवारणी करू नका. पाऊस अपेक्षित आहे. उद्या परिस्थिती पाहून निर्णय घेऊ.") ∧
    (∀ ev, s.riskEvent = some ev → ev.type = "ACTION_BLOCKED" →
      (strHasSub ev.reason "Rain" || ev.reason == "Rain") = false →
      (advisory_delivery_node s v).1 =
        "आज planned कृती करू नका. कारण: " ++ ev.reason ++ ". उद्या पुन्हा तपासा.") ∧
    ((∀ ev, s.riskEvent = some ev → ev.type ≠ "ACTION_BLOCKED") → s.todayActions ≠ [] →
      (advisory_delivery_node s v).1 =
        "आज करावयाच्या कृती: " ++ String.intercalate ", " s.todayActions ++ ".") ∧
    ((∀ ev, s.riskEvent = some ev → ev.type ≠ "ACTION_BLOCKED") → s.todayActions = [] →
      (advisory_delivery_node s v).1 = "आज विशिष्ट कृती नाही. शेताचे निरीक्षण करा.") := by
  have hmsg : (advisory_delivery_node s v).1 =
      advisoryMessage s.todayActions s.riskEvent := rfl
  refine ⟨?_, ?_, ?_, ?_, ?_⟩
  · rw [hmsg]
    cases hev : s.riskEvent with
    | none =>
      simp only [advisoryMessage]
      split
      · exact concat3_ne_empty _ _ _ (by decide)
      · decide
    | some ev =>
      simp only [advisoryMessage]
      split
      · split
        · decide
        · exact concat3_ne_empty _ _ _ (by decide)
      · split
        · exact concat3_ne_empty _ _ _ (by decide)
        · decide
  · intro ev hev ht hr
    rw [hmsg, hev]
    simp only [advisoryMessage]
    rw [if_pos ht, if_pos hr]
  · intro ev hev ht hr
    rw [hmsg, hev]
    simp only [advisoryMessage]
    rw [if_pos ht, if_neg (by simp [hr])]
  · intro hne ht
    rw [hmsg]
    cases hev : s.riskEvent with
    | none =>
      simp only [advisoryMessage]
      rw [if_pos ht]
    | some ev =>
      simp only [advisoryMessage]
      rw [if_neg (hne ev hev), if_pos ht]
  · intro hne ht
    rw [hmsg]
    cases hev : s.riskEvent with
    | none =>
      simp only [advisoryMessage]
      rw [if_neg (by simp [ht])]
    | some ev =>
      simp only [advisoryMessage]
      rw [if_neg (hne ev hev), if_neg (by simp [ht])]

/-- Counterexample for C8 as stated: a HEAT_STRESS risk event (reason
"Heatwave", not "Rain") is present, yet the node emits the joined action
sentence, not the generic do-not-perform message the claim requires for
"a RiskEvent with any other reason". -/
theorem advisory_heat_event_counterexample :
    (advisory_delivery_node
        { baseState with
          todayActions := ["Irrigate"],
          riskEvent := some { type := "HEAT_STRESS", reason := "Heatwave" } }
        emptyVar).1 = "आज करावयाच्या कृती: Irrigate." ∧
    "आज करावयाच्या कृती: Irrigate." ≠
      "आज planned कृती करू नका. कारण: Heatwave. उद्या पुन्हा तपासा." :=
  ⟨rfl, by decide⟩

/-- Witness for C8's amended theorem: the rain-blocked day produces the
localized do-not-spray message. -/
theorem advisory_characterization_witness :
    (advisory_delivery_node rainState emptyVar).1 =
      "आज फवारणी करू नका. पाऊस अपेक्षित आहे. उद्या परिस्थिती पाहून निर्णय घेऊ." :=
  (advisory_characterization rainState emptyVar).2.1
    { type := "ACTION_BLOCKED", reason := "Rain" } rfl rfl (by decide)

lemma rescheduleDayOf_lb (cd md : Int) (h : 0 ≤ md) : cd ≤ rescheduleDayOf cd md := by
  unfold rescheduleDayOf
  dsimp only
  split <;> omega

lemma replanEntry_day_lb {cd rd : Int} {r : String} {ta : List String}
    {e x : CalendarEntry} (hx : x ∈ replanEntry cd rd r ta e)
    (he : cd ≤ e.day) (hrd : cd ≤ rd) : cd ≤ x.day := by
  simp only [replanEntry] at hx
  split at hx
  · rcases List.mem_append.mp hx with h1 | h1
    · split at h1
      · exact absurd h1 (List.not_mem_nil x)
      · rw [List.mem_singleton] at h1
        subst h1
        exact hrd
    · rw [List.mem_singleton] at h1
      subst h1
      exact le_refl cd
  · rw [List.mem_singleton] at hx
    subst hx
    exact he

/-- C4: whenever the replanner actually produces a calendar, every entry
strictly before the current day appears in it unchanged and in the same
relative order — the past sublist of the output equals the past sublist
of the input calendar. -/
theorem replan_preserves_past (kb : Knowledge) (s : FarmGraphState)
    (v : VariableStore) (cal' : List CalendarEntry)
    (h : (calendar_replanner_node kb s v).1 = some cal')
    (hmd : 0 ≤ kb.replanningRules.sprayDelayToleranceDays.getD 3) :
    cal'.filter (fun e => decide (e.day < effectiveCurrentDay s v)) =
      (effectiveCalendar s v).filter (fun e => decide (e.day < effectiveCurrentDay s v)) := by
  cases hev : effectiveRiskEvent s v with
  | none => simp [calendar_replanner_node, hev] at h
  | some ev =>
    simp only [calendar_replanner_node, hev, Option.some.injEq] at h
    subst h
    rw [List.filter_append]
    have hpast : ((effectiveCalendar s v).filter
          (fun e => decide (e.day < effectiveCurrentDay s v))).filter
          (fun e => decide (e.day < effectiveCurrentDay s v)) =
        (effectiveCalendar s v).filter
          (fun e => decide (e.day < effectiveCurrentDay s v)) :=
      List.filter_eq_self.mpr (fun a ha => (List.mem_filter.mp ha).2)
    have hrem : (sortByDay
          (((effectiveCalendar s v).filter
              (fun e => decide (effectiveCurrentDay s v ≤ e.day))).flatMap
            (replanEntry (effectiveCurrentDay s v)
              (rescheduleDayOf (effectiveCurrentDay s v)
                (kb.replanningRules.sprayDelayToleranceDays.getD 3))
              ev.reason s.todayActions))).filter
          (fun e => decide (e.day < effectiveCurrentDay s v)) = [] := by
      refine List.filter_eq_nil_iff.mpr (fun x hx => ?_)
      have hx' := mem_sortByDay.mp hx
      obtain ⟨e, he, hxe⟩ := List.mem_flatMap.mp hx'
      have hle : effectiveCurrentDay s v ≤ e.day := by
        have := (List.mem_filter.mp he).2
        simpa using this
      have hlb := replanEntry_day_lb hxe hle
        (rescheduleDayOf_lb (effectiveCurrentDay s v) _ hmd)
      simp
      omega
    rw [hpast, hrem]
    exact List.append_nil _

/-- Witness for C4: the concrete day-10 rain replan leaves the day-1 past
entry untouched. -/
theorem replan_preserves_past_witness :
    replannedCalRice.filter
        (fun e => decide (e.day < effectiveCurrentDay rainState rainVar)) =
      (effectiveCalendar rainState rainVar).filter
        (fun e => decide (e.day < effectiveCurrentDay rainState rainVar)) :=
  replan_preserves_past kbRice rainState rainVar replannedCalRice (by decide) (by decide)

lemma replanEntry_rain_mem_rescheduled {cd rd : Int} {r : String}
    {ta : List String} {e : CalendarEntry}
    (hd : e.day = cd) (hr : r = "Rain")
    (hb : e.actions.filter (fun a => ta.contains a) ≠ []) :
    { day := rd, stage := e.stage,
      actions := (e.actions.filter (fun a => ta.contains a)).map
        (fun a => a ++ " (rescheduled)"),
      dependencies := e.dependencies,
      weatherConstraints := e.weatherConstraints } ∈ replanEntry cd rd r ta e := by
  simp only [replanEntry, if_pos (And.intro hd hr)]
  refine List.mem_append.mpr (Or.inl ?_)
  rw [if_neg (by simpa [List.map_eq_nil_iff] using hb)]
  exact List.mem_singleton.mpr rfl

lemma replanEntry_rain_mem_current {cd rd : Int} {r : String}
    {ta : List String} {e : CalendarEntry}
    (hd : e.day = cd) (hr : r = "Rain") :
    { day := cd,
      stage := if e.actions.filter (fun a => !ta.contains a) = [] then "Monitoring"
               else e.stage,
      actions := if e.actions.filter (fun a => !ta.contains a) = [] then ["Field scouting"]
                 else e.actions.filter (fun a => !ta.contains a),
      dependencies := [], weatherConstraints := [] } ∈ replanEntry cd rd r ta e := by
  simp only [replanEntry, if_pos (And.intro hd hr)]
  exact List.mem_append.mpr (Or.inr (List.mem_singleton.mpr rfl))

lemma mem_replanned_calendar {kb : Knowledge} {s : FarmGraphState}
    {v : VariableStore} {ev : RiskEvent} {e x : CalendarEntry}
    (hev : effectiveRiskEvent s v = some ev)
    (he : e ∈ effectiveCalendar s v)
    (hd : effectiveCurrentDay s v ≤ e.day)
    (hx : x ∈ replanEntry (effectiveCurrentDay s v)
      (rescheduleDayOf (effectiveCurrentDay s v)
        (kb.replanningRules.sprayDelayToleranceDays.getD 3))
      ev.reason s.todayActions e) :
    x ∈ (calendar_replanner_node kb s v).2.cropCalendar := by
  simp only [calendar_replanner_node, hev]
  refine List.mem_append.mpr (Or.inr ?_)
  refine mem_sortByDay.mpr (List.mem_flatMap.mpr ⟨e, ?_, hx⟩)
  exact List.mem_filter.mpr ⟨he, decide_eq_true hd⟩

lemma rescheduleDayOf_gt (cd md : Int) (h : 1 ≤ md) : cd < rescheduleDayOf cd md := by
  unfold rescheduleDayOf
  dsimp only
  split <;> omega

lemma filter_day_replanEntry (cd rd : Int) (ta : List String) (e : CalendarEntry)
    (hrd : rd ≠ cd) :
    (replanEntry cd rd "Rain" ta e).filter (fun x => decide (x.day = cd)) =
      if e.day = cd then
        [{ day := cd,
           stage := if e.actions.filter (fun a => !ta.contains a) = [] then "Monitoring"
                    else e.stage,
           actions := if e.actions.filter (fun a => !ta.contains a) = [] then ["Field scouting"]
                      else e.actions.filter (fun a => !ta.contains a),
           dependencies := [], weatherConstraints := [] }]
      else [] := by
  by_cases hd : e.day = cd
  · rw [if_pos hd]
    simp only [replanEntry]
    rw [if_pos (And.intro hd trivial), List.filter_append]
    split
    · simp
    · simp [hrd]
  · rw [if_neg hd]
    simp only [replanEntry]
    rw [if_neg (fun hc : e.day = cd ∧ True => hd hc.1)]
    simp [hd]

lemma filter_day_flatMap_replan (cd rd : Int) (ta : List String)
    (l : List CalendarEntry) (hrd : rd ≠ cd) :
    (l.flatMap (replanEntry cd rd "Rain" ta)).filter (fun x => decide (x.day = cd)) =
      (l.filter (fun e => decide (e.day = cd))).map
        (fun e =>
          { day := cd,
            stage := if e.actions.filter (fun a => !ta.contains a) = [] then "Monitoring"
                     else e.stage,
            actions := if e.actions.filter (fun a => !ta.contains a) = [] then ["Field scouting"]
                       else e.actions.filter (fun a => !ta.contains a),
            dependencies := [], weatherConstraints := [] }) := by
  induction l with
  | nil => rfl
  | cons a l ih =>
    rw [List.flatMap_cons, List.filter_append, ih,
      filter_day_replanEntry cd rd ta a hrd]
    by_cases hd : a.day = cd
    · rw [if_pos hd]
      simp [hd]
    · rw [if_neg hd]
      simp [hd]

/-- C2: in a rain-triggered replan, the blocked actions (the entry's
actions belonging to `todayActions`) of each entry at exactly the current
day are re-inserted as a new entry at the reschedule day with a
" (rescheduled)" suffix on each action name (when any exist); and the
entries of the produced calendar at the current day are exactly, one per
original current-day entry, the replacement holding precisely the actions
that were not blocked — so the blocked actions are removed from the
current day — with the original stage kept, the day being relabeled stage
"Monitoring" with the single fallback action "Field scouting" if and only
if no action remains. -/
theorem replan_moves_blocked_and_keeps_rest (kb : Knowledge) (s : FarmGraphState)
    (v : VariableStore) (ev : RiskEvent)
    (hev : effectiveRiskEvent s v = some ev)
    (hr : ev.reason = "Rain")
    (hmd : 1 ≤ kb.replanningRules.sprayDelayToleranceDays.getD 3) :
    (∀ e, e ∈ effectiveCalendar s v → e.day = effectiveCurrentDay s v →
      e.actions.filter (fun a => s.todayActions.contains a) ≠ [] →
      { day := rescheduleDayOf (effectiveCurrentDay s v)
          (kb.replanningRules.sprayDelayToleranceDays.getD 3),
        stage := e.stage,
        actions := (e.actions.filter (fun a => s.todayActions.contains a)).map
          (fun a => a ++ " (rescheduled)"),
        dependencies := e.dependencies,
        weatherConstraints := e.weatherConstraints }
        ∈ (calendar_replanner_node kb s v).2.cropCalendar) ∧
    (((calendar_replanner_node kb s v).2.cropCalendar).filter
        (fun e => decide (e.day = effectiveCurrentDay s v))).Perm
      (((effectiveCalendar s v).filter
          (fun e => decide (e.day = effectiveCurrentDay s v))).map
        (fun e =>
          { day := effectiveCurrentDay s v,
            stage := if e.actions.filter (fun a => !s.todayActions.contains a) = []
                     then "Monitoring" else e.stage,
            actions := if e.actions.filter (fun a => !s.todayActions.contains a) = []
                       then ["Field scouting"]
                       else e.actions.filter (fun a => !s.todayActions.contains a),
            dependencies := [], weatherConstraints := [] })) := by
  constructor
  · intro e he hd hb
    exact mem_replanned_calendar hev he (le_of_eq hd.symm)
      (replanEntry_rain_mem_rescheduled hd hr hb)
  · have hrd : rescheduleDayOf (effectiveCurrentDay s v)
        (kb.replanningRules.sprayDelayToleranceDays.getD 3) ≠ effectiveCurrentDay s v :=
      ne_of_gt (rescheduleDayOf_gt (effectiveCurrentDay s v) _ hmd)
    simp only [calendar_replanner_node, hev]
    rw [hr, List.filter_append]
    have hpast : ((effectiveCalendar s v).filter
          (fun e => decide (e.day < effectiveCurrentDay s v))).filter
          (fun e => decide (e.day = effectiveCurrentDay s v)) = [] := by
      refine List.filter_eq_nil_iff.mpr (fun x hx => ?_)
      have h1 := (List.mem_filter.mp hx).2
      simp at h1 ⊢
      omega
    rw [hpast, List.nil_append]
    refine ((sortByDay_perm _).filter _).trans ?_
    rw [filter_day_flatMap_replan _ _ _ _ hrd]
    have hrf : (((effectiveCalendar s v).filter
          (fun e => decide (effectiveCurrentDay s v ≤ e.day))).filter
          (fun e => decide (e.day = effectiveCurrentDay s v))) =
        ((effectiveCalendar s v).filter
          (fun e => decide (e.day = effectiveCurrentDay s v))) := by
      rw [List.filter_filter]
      refine List.filter_congr (fun x hx => ?_)
      by_cases h : x.day = effectiveCurrentDay s v
      · simp [h]
      · simp [h]
    rw [hrf]

/-- Witness for C2: on the concrete day-10 rain replan, the blocked spray
reappears at day 12 with the " (rescheduled)" suffix, and the entries of
the produced calendar at day 10 are exactly the single Monitoring /
"Field scouting" replacement (the spray no longer appears at day 10). -/
theorem replan_moves_blocked_and_keeps_rest_witness :
    { day := 12, stage := "Vegetative",
      actions := ["Fungicide spray (rescheduled)"],
      dependencies := ["Sowing"], weatherConstraints := ["no rain"] }
      ∈ (calendar_replanner_node kbRice rainState rainVar).2.cropCalendar ∧
    (((calendar_replanner_node kbRice rainState rainVar).2.cropCalendar).filter
        (fun e => decide (e.day = effectiveCurrentDay rainState rainVar))).Perm
      [{ day := 10, stage := "Monitoring", actions := ["Field scouting"],
         dependencies := [], weatherConstraints := [] }] := by
  have h := replan_moves_blocked_and_keeps_rest kbRice rainState rainVar
    { type := "ACTION_BLOCKED", reason := "Rain" } rfl rfl (by decide)
  constructor
  · exact h.1 entry10 (by decide) rfl (by decide)
  · exact h.2.trans (by decide)

lemma planner_days_perm (kb : Knowledge) (s : FarmGraphState) (v : VariableStore) :
    (((crop_calendar_planner_node kb s v).1.cropCalendar).map (fun e => e.day)).Perm
      ((get_crop_lifecycle kb s.crop).map (fun b => b.dayStart)) := by
  cases hlc : get_crop_lifecycle kb s.crop with
  | nil => simp [crop_calendar_planner_node, hlc]
  | cons b rest =>
    simp only [crop_calendar_planner_node, hlc]
    have h1 := (sortByDay_perm ((b :: rest).map stageEntry)).map (fun e => e.day)
    refine h1.trans ?_
    rw [List.map_map]
    exact List.Perm.refl _

lemma replanEntry_mem_day (cd rd : Int) (r : String) (ta : List String)
    (e : CalendarEntry) :
    ∃ x ∈ replanEntry cd rd r ta e, x.day = e.day := by
  by_cases h : e.day = cd ∧ r = "Rain"
  · exact ⟨_, replanEntry_rain_mem_current h.1 h.2, h.1.symm⟩
  · exact ⟨e, by simp [replanEntry, h], rfl⟩

lemma replanEntry_day_cases {cd rd : Int} {r : String} {ta : List String}
    {e x : CalendarEntry} (hx : x ∈ replanEntry cd rd r ta e) :
    x = e ∨ (e.day = cd ∧ (x.day = rd ∨ x.day = cd)) := by
  simp only [replanEntry] at hx
  split at hx
  case isTrue h =>
    right
    refine ⟨h.1, ?_⟩
    rcases List.mem_append.mp hx with h1 | h1
    · split at h1
      · exact absurd h1 (List.not_mem_nil x)
      · rw [List.mem_singleton] at h1
        subst h1
        exact Or.inl rfl
    · rw [List.mem_singleton] at h1
      subst h1
      exact Or.inr rfl
  case isFalse h =>
    rw [List.mem_singleton] at hx
    exact Or.inl hx

/-- C1 (amended): after planning, the multiset of `day` values in the
calendar equals the multiset of the lifecycle stages' `dayStart` values
(one entry per stage) rather than the contiguous range
`[1, cycleDuration]`; and whenever the replanner produces a calendar,
every day value present before is still present afterwards, and every day
value afterwards is either an original day or the reschedule day. -/
theorem calendar_days_after_plan_and_replan :
    (∀ (kb : Knowledge) (s : FarmGraphState) (v : VariableStore),
      (((crop_calendar_planner_node kb s v).1.cropCalendar).map (fun e => e.day)).Perm
        ((get_crop_lifecycle kb s.crop).map (fun b => b.dayStart))) ∧
    (∀ (kb : Knowledge) (s : FarmGraphState) (v : VariableStore)
      (cal' : List CalendarEntry),
      (calendar_replanner_node kb s v).1 = some cal' →
      (∀ d, d ∈ (effectiveCalendar s v).map (fun e => e.day) →
        d ∈ cal'.map (fun e => e.day)) ∧
      (∀ d, d ∈ cal'.map (fun e => e.day) →
        d ∈ (effectiveCalendar s v).map (fun e => e.day) ∨
        d = rescheduleDayOf (effectiveCurrentDay s v)
          (kb.replanningRules.sprayDelayToleranceDays.getD 3))) := by
  refine ⟨planner_days_perm, ?_⟩
  intro kb s v cal' h
  cases hev : effectiveRiskEvent s v with
  | none => simp [calendar_replanner_node, hev] at h
  | some ev =>
    simp only [calendar_replanner_node, hev, Option.some.injEq] at h
    subst h
    constructor
    · intro d hd
      rw [List.mem_map] at hd
      obtain ⟨e, he, rfl⟩ := hd
      rw [List.mem_map]
      by_cases hlt : e.day < effectiveCurrentDay s v
      · exact ⟨e, List.mem_append.mpr
          (Or.inl (List.mem_filter.mpr ⟨he, decide_eq_true hlt⟩)), rfl⟩
      · obtain ⟨x, hx, hxd⟩ := replanEntry_mem_day (effectiveCurrentDay s v)
          (rescheduleDayOf (effectiveCurrentDay s v)
            (kb.replanningRules.sprayDelayToleranceDays.getD 3))
          ev.reason s.todayActions e
        refine ⟨x, List.mem_append.mpr (Or.inr ?_), hxd⟩
        refine mem_sortByDay.mpr (List.mem_flatMap.mpr ⟨e, ?_, hx⟩)
        exact List.mem_filter.mpr ⟨he, decide_eq_true (Int.not_lt.mp hlt)⟩
    · intro d hd
      rw [List.mem_map] at hd
      obtain ⟨x, hx, rfl⟩ := hd
      rcases List.mem_append.mp hx with h1 | h1
      · exact Or.inl (List.mem_map.mpr ⟨x, (List.mem_filter.mp h1).1, rfl⟩)
      · obtain ⟨e, he, hxe⟩ := List.mem_flatMap.mp (mem_sortByDay.mp h1)
        rcases replanEntry_day_cases hxe with rfl | ⟨hecd, hcase⟩
        · exact Or.inl (List.mem_map.mpr ⟨x, (List.mem_filter.mp he).1, rfl⟩)
        · rcases hcase with hrd | hcd
          · exact Or.inr hrd
          · exact Or.inl (List.mem_map.mpr
              ⟨e, (List.mem_filter.mp he).1, hecd.trans hcd.symm⟩)

/-- Counterexample for C1 as stated: a rice lifecycle whose stages cover
days 1–10 yields a planned calendar with day values {1, 6} only — day 2
lies in `[1, cycleDuration] = [1, 10]` but is covered by no entry, so the
day values are not the contiguous range. -/
theorem calendar_contiguity_counterexample :
    specCycleDuration (get_crop_lifecycle kbPair "rice") = 10 ∧
    (1 : Int) ≤ 2 ∧ (2 : Int) ≤ 10 ∧
    (2 : Int) ∉ ((crop_calendar_planner_node kbPair
      { baseState with crop := "rice" } emptyVar).1.cropCalendar.map
        (fun e => e.day)) := by
  decide

/-- Witness for C1's amended theorem: the planner's day multiset for the
two-stage lifecycle matches its `dayStart`s, and on the concrete day-10
replan the original day 10 survives into the produced calendar. -/
theorem calendar_days_after_plan_and_replan_witness :
    (((crop_calendar_planner_node kbPair { baseState with crop := "rice" }
        emptyVar).1.cropCalendar).map (fun e => e.day)).Perm
      ((get_crop_lifecycle kbPair "rice").map (fun b => b.dayStart)) ∧
    (10 : Int) ∈ replannedCalRice.map (fun e => e.day) := by
  constructor
  · exact calendar_days_after_plan_and_replan.1 kbPair
      { baseState with crop := "rice" } emptyVar
  · exact (calendar_days_after_plan_and_replan.2 kbRice rainState rainVar
      replannedCalRice (by decide)).1 10 (by decide)
